import Mathlib

/-!
Shallow embedding of the per-finding reconciliation performed by
CreateECSLoggingIssueTickets.create_tickets_ecs_logging
(src/hammer/reporting-remediation/reporting/create_ecs_logging_issue_tickets.py).

The engine iterates accounts, then each account's not-closed findings, and for
each finding either files a new jira ticket, closes an existing one, flags a
change, or does nothing.  External collaborators (jira client, slack client,
dynamodb store operations) live outside src/; calls to them are recorded as an
ordered event trace and their outcomes (success / raised exception / returned
value) are inputs taken from an environment.  Only the jira.add_issue call is
wrapped in try/except in the source; an exception raised by any other call
propagates out of the whole run, which the model renders as Except.error.
-/

namespace Hammer

/-- Status enum of a finding (library.ddb_issues.IssueStatus); the spec lists
the members Open, Reported, Resolved, Whitelisted, Closed. -/
inductive IssueStatus where
  | Open
  | Reported
  | Resolved
  | Whitelisted
  | Closed
deriving DecidableEq, Repr

/-- The .value of the status enum member, used in log and comment strings. -/
def IssueStatus.value : IssueStatus → String
  | .Open => "open"
  | .Reported => "reported"
  | .Resolved => "resolved"
  | .Whitelisted => "whitelisted"
  | .Closed => "closed"

/-- Jira-side metadata stored on a finding (issue.jira_details). -/
structure JiraDetails where
  ticket : Option String
  ticket_assignee_id : Option String
  owner : Option String
  business_unit : Option String
  product : Option String
deriving DecidableEq, Repr

/-- Detection-side details of a finding (issue.issue_details). -/
structure IssueDetails where
  region : String
  tags : List (String × String)
deriving DecidableEq, Repr

/-- Timestamps of a finding (issue.timestamps): reported is unset until a
ticket has been filed; updated is refreshed by the external scanner. -/
structure Timestamps where
  reported : Option Nat
  updated : Nat
deriving DecidableEq, Repr

/-- A persisted finding (an ECSLoggingIssue record). -/
structure Issue where
  issue_id : String
  status : IssueStatus
  issue_details : IssueDetails
  timestamps : Timestamps
  jira_details : JiraDetails
deriving DecidableEq, Repr

/-- Result of a successful jira.add_issue call: a ticket id and an assignee
(the assignee is best-effort and may be absent). -/
structure NewIssueResponse where
  ticket_id : String
  ticket_assignee_id : Option String
deriving DecidableEq, Repr

/-- Outcomes of the external calls made while reconciling one finding.
addIssueResult is the outcome of jira.add_issue: it raises, returns None, or
returns a response.  The three Bool flags say whether jira.add_label,
jira.close_issue and slack.report_issue raise when called. -/
structure Env where
  addIssueResult : Except Unit (Option NewIssueResponse)
  addLabelRaises : Bool
  closeRaises : Bool
  slackRaises : Bool

/-- One external call issued while reconciling a finding, in program order. -/
inductive Event where
  | addLabel (ticket : Option String) (label : String)
  | closeIssue (ticket : Option String) (comment : String)
  | addIssue (summary : String) (description : String) (priority : String)
      (labels : List String)
  | slackReport (msg : String) (owner : Option String) (accountId : String)
      (bu : Option String) (product : Option String)
  | setStatusClosed
  | setStatusUpdated
  | setStatusReported
deriving DecidableEq, Repr

/-- Python dict .get(key, None) on the finding's tags. -/
def tagsGet (tags : List (String × String)) (k : String) : Option String :=
  List.lookup k tags

/-- Modelled from the spec: the Ticket Client's url_for(ticket_id) -> string
(JiraReporting.ticket_url is not under src/). -/
def ticket_url (ticket_id : String) : String :=
  "https://jira.example.com/browse/" ++ ticket_id

/-- Python truthiness of the optional ticket field in the message suffix
( \x27 (\x27 + jira.ticket_url(ticket) + \x27)\x27 if ticket else \x27\x27 ):
None and the empty string are falsy. -/
def ticketSuffix (ticket : Option String) : String :=
  match ticket with
  | some t => if t = "" then "" else " (" ++ ticket_url t ++ ")"
  | none => ""

/-- Modelled from the spec: JiraOperations.build_tags_table renders a table of
the finding's tags (the implementation is not under src/). -/
def build_tags_table (tags : List (String × String)) : String :=
  tags.foldl (fun acc kv => acc ++ "|" ++ kv.1 ++ "|" ++ kv.2 ++ "|\n")
    "*Tags*:\n"

/-- Modelled from the spec: date-only precision of a timestamp (Python
datetime .date()); timestamps are seconds, a date is a day number. -/
def dateOnly (t : Nat) : Nat := t / 86400

/-- Modelled from the spec: IssueOperations.set_status_reported marks the
finding Reported with reported_at = now (the store adapter is not under
src/). -/
def set_status_reported (now : Nat) (issue : Issue) : Issue :=
  { issue with
    status := IssueStatus.Reported
    timestamps := { issue.timestamps with reported := some now } }

/-- Modelled from the spec: IssueOperations.set_status_closed marks the
finding Closed, excluding it from future passes (not under src/). -/
def set_status_closed (issue : Issue) : Issue :=
  { issue with status := IssueStatus.Closed }

/-- Modelled from the spec: IssueOperations.set_status_updated advances the
last-acknowledged-update marker so the drift branch is not re-triggered until
updated advances again; the branch compares updated against reported, so the
marker is the reported timestamp (not under src/). -/
def set_status_updated (issue : Issue) : Issue :=
  { issue with
    timestamps := { issue.timestamps with
      reported := some issue.timestamps.updated } }

/-- Assignment of ticket id and assignee performed only when the add_issue
response is not None (lines 123-125 of the source). -/
def withTicket (response : Option NewIssueResponse) (issue : Issue) : Issue :=
  match response with
  | some r =>
    { issue with jira_details := { issue.jira_details with
        ticket := some r.ticket_id
        ticket_assignee_id := r.ticket_assignee_id } }
  | none => issue

/-- Assignment of owner, business unit and product derived from tags
(lines 127-129 of the source). -/
def withOwnership (owner bu product : Option String) (issue : Issue) : Issue :=
  { issue with jira_details := { issue.jira_details with
      owner := owner
      business_unit := bu
      product := product } }

/-- The close comment of the terminal-disposition branch (lines 48-49). -/
def closeComment (st : IssueStatus) (task_definition_arn accountName accountId
    region : String) : String :=
  "Closing " ++ st.value ++ " ECS logging enabled \x27" ++
    task_definition_arn ++ "\x27 issue " ++
    "in \x27" ++ accountName ++ " / " ++ accountId ++ "\x27 account, \x27" ++
    region ++ "\x27 region"

/-- The drift-branch slack message (lines 72-74). -/
def changedMsg (task_definition_arn accountName accountId region : String)
    (ticket : Option String) : String :=
  "ECS logging \x27" ++ task_definition_arn ++ "\x27 issue is changed " ++
    "in \x27" ++ accountName ++ " / " ++ accountId ++ "\x27 account, \x27" ++
    region ++ "\x27 region" ++ ticketSuffix ticket

/-- The new-ticket summary (lines 90-91; note the source has no space between
the closing quote of the arn and the word in). -/
def issueSummary (task_definition_arn accountName accountId : String)
    (bu : Option String) : String :=
  "ECS logging is not enabled for \x27" ++ task_definition_arn ++ "\x27" ++
    "in \x27" ++ accountName ++ " / " ++ accountId ++ "\x27 account" ++
    (match bu with
     | some b => if b = "" then "" else " [" ++ b ++ "]"
     | none => "")

/-- The new-ticket description (lines 93-109). -/
def issueDescription (accountName accountId region task_definition_arn :
    String) (autoRemediationDate : Nat) (tags : List (String × String)) :
    String :=
  "The ECS logging is not enabled.\n\n" ++
    "*Risk*: High\n\n" ++
    "*Account Name*: " ++ accountName ++ "\n" ++
    "*Account ID*: " ++ accountId ++ "\n" ++
    "*Region*: " ++ region ++ "\n" ++
    "*ECS Task Definition*: " ++ task_definition_arn ++ "\n" ++
    "\n\x7bcolor:red\x7d*Auto-Remediation Date*: " ++
    toString autoRemediationDate ++ "\x7bcolor\x7d\n\n" ++
    build_tags_table tags ++
    "\n" ++
    "*Recommendation*: Enable logging for ECS task definition."

/-- Per-finding reconciliation, the body of the inner for loop (lines 35-139).
Returns the trace of external calls issued, in order, and either the finding
as persisted (Except.ok) or Except.error when a call raised an exception that
the loop body does not catch; the only call wrapped in try/except in the
source is jira.add_issue.  A raising call still contributes its event (the
call was issued) and aborts everything after it. -/
def reconcile (accountId accountName : String) (now retention : Nat)
    (env : Env) (issue : Issue) : List Event × Except Unit Issue :=
  let task_definition_arn := issue.issue_id
  let region := issue.issue_details.region
  let tags := issue.issue_details.tags
  match issue.timestamps.reported with
  | some reported =>
    -- issue has been already reported
    let owner := issue.jira_details.owner
    let bu := issue.jira_details.business_unit
    let product := issue.jira_details.product
    if issue.status = IssueStatus.Resolved ∨
        issue.status = IssueStatus.Whitelisted then
      let comment := closeComment issue.status task_definition_arn
        accountName accountId region
      let labelEvents :=
        if issue.status = IssueStatus.Whitelisted then
          [Event.addLabel issue.jira_details.ticket
            IssueStatus.Whitelisted.value]
        else []
      if issue.status = IssueStatus.Whitelisted ∧ env.addLabelRaises then
        (labelEvents, Except.error ())
      else
        let evs1 := labelEvents ++
          [Event.closeIssue issue.jira_details.ticket comment]
        if env.closeRaises then (evs1, Except.error ())
        else
          let evs2 := evs1 ++
            [Event.slackReport (comment ++
                ticketSuffix issue.jira_details.ticket)
              owner accountId bu product]
          if env.slackRaises then (evs2, Except.error ())
          else (evs2 ++ [Event.setStatusClosed],
            Except.ok (set_status_closed issue))
    else if issue.timestamps.updated > reported then
      let evs1 := [Event.slackReport
        (changedMsg task_definition_arn accountName accountId region
          issue.jira_details.ticket)
        owner accountId bu product]
      if env.slackRaises then (evs1, Except.error ())
      else (evs1 ++ [Event.setStatusUpdated],
        Except.ok (set_status_updated issue))
    else
      ([], Except.ok issue)
  | none =>
    -- issue has not been reported yet
    let owner := tagsGet tags "owner"
    let bu := tagsGet tags "bu"
    let product := tagsGet tags "product"
    let summary := issueSummary task_definition_arn accountName accountId bu
    let descr := issueDescription accountName accountId region
      task_definition_arn (dateOnly (now + retention)) tags
    let attempt := Event.addIssue summary descr "Major" ["ecs-logging"]
    match env.addIssueResult with
    | Except.error _ =>
      -- try/except around jira.add_issue: log and continue
      ([attempt], Except.ok issue)
    | Except.ok response =>
      let issue2 := withOwnership owner bu product (withTicket response issue)
      let evs1 := [attempt,
        Event.slackReport ("Discovered " ++ summary ++
            ticketSuffix issue2.jira_details.ticket)
          owner accountId bu product]
      if env.slackRaises then (evs1, Except.error ())
      else (evs1 ++ [Event.setStatusReported],
        Except.ok (set_status_reported now issue2))

/-- The inner for loop over one account's not-closed findings (lines 35-139):
each finding is reconciled in order; an uncaught exception aborts the loop
(and, in the source, the whole method).  Returns the reconciled findings with
their traces, and whether the loop ran to completion. -/
def processFindings (accountId accountName : String) (now retention : Nat) :
    List (Issue × Env) → List (Issue × List Event) × Bool
  | [] => ([], true)
  | (issue, env) :: rest =>
    match reconcile accountId accountName now retention env issue with
    | (tr, Except.ok issue2) =>
      let step := processFindings accountId accountName now retention rest
      ((issue2, tr) :: step.1, step.2)
    | (_, Except.error _) => ([], false)

/-- One account of the outer loop: its id, its name, and its not-closed
findings paired with the outcomes of the external calls made for each. -/
structure AccountInput where
  accountId : String
  accountName : String
  findings : List (Issue × Env)

/-- The outer for loop over accounts (line 32): accounts are processed in
order and an uncaught exception while reconciling one finding aborts the
remaining accounts as well. -/
def processAccounts (now retention : Nat) :
    List AccountInput → List (List (Issue × List Event)) × Bool
  | [] => ([], true)
  | a :: rest =>
    let step := processFindings a.accountId a.accountName now retention
      a.findings
    if step.2 then
      let next := processAccounts now retention rest
      (step.1 :: next.1, next.2)
    else ([step.1], false)

/-- An event that mutates the external ticket (creating, labelling or closing
it). -/
def isTicketMutation : Event → Bool
  | Event.addLabel _ _ => true
  | Event.closeIssue _ _ => true
  | Event.addIssue _ _ _ _ => true
  | _ => false

/-- An event that sends a notification. -/
def isNotification : Event → Bool
  | Event.slackReport _ _ _ _ _ => true
  | _ => false

/-- An event that updates the finding store. -/
def isStoreUpdate : Event → Bool
  | Event.setStatusClosed => true
  | Event.setStatusUpdated => true
  | Event.setStatusReported => true
  | _ => false

/-- An environment whose label, close and slack calls all succeed (the
add_issue outcome is unconstrained). -/
def envClean (e : Env) : Bool :=
  !e.addLabelRaises && !e.closeRaises && !e.slackRaises

/-- The string sub occurs inside s. -/
def mentions (s sub : String) : Prop :=
  ∃ a b, s = a ++ (sub ++ b)

/-- A finding with no jira metadata at all. -/
def jiraEmpty : JiraDetails :=
  { ticket := none, ticket_assignee_id := none, owner := none,
    business_unit := none, product := none }

/-- Jira metadata as stored at report time. -/
def jiraStored : JiraDetails :=
  { ticket := some "X-1", ticket_assignee_id := some "u-1",
    owner := some "alice", business_unit := some "fin",
    product := some "widget" }

/-- Detection details shared by the sample findings. -/
def sampleDetails : IssueDetails :=
  { region := "us-east-1", tags := [("owner", "alice"), ("bu", "fin")] }

/-- A finding not yet reported. -/
def sampleUnreported : Issue :=
  { issue_id := "arn:task:1", status := IssueStatus.Open,
    issue_details := sampleDetails,
    timestamps := { reported := none, updated := 5 },
    jira_details := jiraEmpty }

/-- A reported finding later whitelisted. -/
def sampleWhitelisted : Issue :=
  { issue_id := "arn:task:2", status := IssueStatus.Whitelisted,
    issue_details := sampleDetails,
    timestamps := { reported := some 10, updated := 20 },
    jira_details := jiraStored }

/-- A reported finding later resolved. -/
def sampleResolved : Issue :=
  { issue_id := "arn:task:3", status := IssueStatus.Resolved,
    issue_details := sampleDetails,
    timestamps := { reported := some 10, updated := 20 },
    jira_details := jiraStored }

/-- A reported, still open finding whose detection was refreshed after the
report. -/
def sampleDrift : Issue :=
  { issue_id := "arn:task:4", status := IssueStatus.Open,
    issue_details := sampleDetails,
    timestamps := { reported := some 10, updated := 20 },
    jira_details := jiraStored }

/-- A reported, still open finding unchanged since the report. -/
def sampleNoChange : Issue :=
  { issue_id := "arn:task:5", status := IssueStatus.Open,
    issue_details := sampleDetails,
    timestamps := { reported := some 10, updated := 10 },
    jira_details := jiraStored }

/-- A response from a successful ticket creation. -/
def respX9 : NewIssueResponse :=
  { ticket_id := "X-9", ticket_assignee_id := some "assignee-9" }

/-- Every external call succeeds and creation returns a ticket. -/
def envOk : Env :=
  { addIssueResult := Except.ok (some respX9), addLabelRaises := false,
    closeRaises := false, slackRaises := false }

/-- Every external call succeeds but creation returns None. -/
def envNoneResponse : Env :=
  { addIssueResult := Except.ok none, addLabelRaises := false,
    closeRaises := false, slackRaises := false }

/-- Ticket creation raises; everything else succeeds. -/
def envCreateFails : Env :=
  { addIssueResult := Except.error (), addLabelRaises := false,
    closeRaises := false, slackRaises := false }

/-- The slack notification raises; everything else succeeds. -/
def envSlackFails : Env :=
  { addIssueResult := Except.ok (some respX9), addLabelRaises := false,
    closeRaises := false, slackRaises := true }

/-- An event that is a ticket-creation attempt. -/
def isCreateAttempt : Event → Bool
  | Event.addIssue _ _ _ _ => true
  | _ => false

/-- An event that closes the ticket. -/
def isCloseEvent : Event → Bool
  | Event.closeIssue _ _ => true
  | _ => false

/-- At most two ticket mutations, at most one notification and at most one
store update in a trace. -/
def effectBounds (tr : List Event) : Prop :=
  tr.countP isTicketMutation ≤ 2 ∧ tr.countP isNotification ≤ 1
    ∧ tr.countP isStoreUpdate ≤ 1

/-- The fields of a finding that the reporting branch is specified to set:
status, reported timestamp, ticket, assignee, owner, business unit,
product. -/
def reportView (i : Issue) :
    IssueStatus × Option Nat × Option String × Option String ×
      Option String × Option String × Option String :=
  (i.status, i.timestamps.reported, i.jira_details.ticket,
    i.jira_details.ticket_assignee_id, i.jira_details.owner,
    i.jira_details.business_unit, i.jira_details.product)

/-- The finding persisted when creation succeeds but the jira client returns
None: Reported, reported set, and no ticket id. -/
def reportedNoTicket : Issue :=
  set_status_reported 100
    (withOwnership (some "alice") (some "fin") none sampleUnreported)

/-- The finding persisted when creation returns the sample response. -/
def reportedWithTicket : Issue :=
  set_status_reported 100
    (withOwnership (some "alice") (some "fin") none
      (withTicket (some respX9) sampleUnreported))

/-- The summary composed for the sample unreported finding. -/
def unrepSummary : String :=
  issueSummary "arn:task:1" "acme" "123456789012" (some "fin")

/-- The description composed for the sample unreported finding. -/
def unrepDescr : String :=
  issueDescription "acme" "123456789012" "us-east-1" "arn:task:1"
    (dateOnly 130) [("owner", "alice"), ("bu", "fin")]

/-- The trace of the sample unreported finding under envOk. -/
def unrepTraceOk : List Event :=
  [Event.addIssue unrepSummary unrepDescr "Major" ["ecs-logging"],
   Event.slackReport ("Discovered " ++ unrepSummary ++
       ticketSuffix (some "X-9"))
     (some "alice") "123456789012" (some "fin") none,
   Event.setStatusReported]

/-- The trace of the sample whitelisted finding under envOk. -/
def wlTrace : List Event :=
  [Event.addLabel (some "X-1") "whitelisted",
   Event.closeIssue (some "X-1")
     (closeComment IssueStatus.Whitelisted "arn:task:2" "n1" "a1"
       "us-east-1"),
   Event.slackReport
     (closeComment IssueStatus.Whitelisted "arn:task:2" "n1" "a1"
         "us-east-1" ++ ticketSuffix (some "X-1"))
     (some "alice") "a1" (some "fin") (some "widget"),
   Event.setStatusClosed]

/-- A one-account run holding a finding whose ticket creation raises followed
by a whitelisted finding, all other calls succeeding. -/
def witnessAccounts : List AccountInput :=
  [{ accountId := "a1", accountName := "n1",
     findings := [(sampleUnreported, envCreateFails),
                  (sampleWhitelisted, envOk)] }]

/-- C9: a reported, still open finding whose updated timestamp does not
exceed its reported timestamp is left untouched: no external call of any kind
is issued and the persisted finding is the input finding. -/
theorem no_change_is_noop (accountId accountName : String)
    (now retention : Nat) (env : Env) (issue : Issue) (t : Nat)
    (hst : issue.status = IssueStatus.Open)
    (hrep : issue.timestamps.reported = some t)
    (hupd : issue.timestamps.updated ≤ t) :
    reconcile accountId accountName now retention env issue
      = ([], Except.ok issue) := by
  simp [reconcile, hrep, hst, Nat.not_lt.mpr hupd]

/-- Witness for C9 at a concrete no-change finding. -/
theorem no_change_is_noop_witness :
    reconcile "a1" "n1" 100 30 envOk sampleNoChange
      = ([], Except.ok sampleNoChange) :=
  no_change_is_noop "a1" "n1" 100 30 envOk sampleNoChange 10 rfl rfl
    (by decide)

/-- C4: when ticket creation raises for an unreported finding, the persisted
finding is exactly the input finding and the only call issued is the creation
attempt (no store write, no notification); and any later pass over the
identical finding issues a creation attempt again. -/
theorem creation_failure_leaves_finding_unchanged
    (accountId accountName : String) (now retention : Nat) (env : Env)
    (issue : Issue)
    (hrep : issue.timestamps.reported = none)
    (hadd : env.addIssueResult = Except.error ()) :
    reconcile accountId accountName now retention env issue
      = ([Event.addIssue
            (issueSummary issue.issue_id accountName accountId
              (tagsGet issue.issue_details.tags "bu"))
            (issueDescription accountName accountId
              issue.issue_details.region issue.issue_id
              (dateOnly (now + retention)) issue.issue_details.tags)
            "Major" ["ecs-logging"]],
         Except.ok issue)
    ∧ ∀ env2 : Env, ∀ now2 ret2 : Nat,
        (reconcile accountId accountName now2 ret2 env2 issue).1.any
          isCreateAttempt = true := by
  constructor
  · simp [reconcile, hrep, hadd]
  · intro env2 now2 ret2
    rcases h2 : env2.addIssueResult with e | response
    · simp [reconcile, hrep, h2, isCreateAttempt]
    · by_cases hs : env2.slackRaises <;>
        simp [reconcile, hrep, h2, hs, isCreateAttempt]

/-- Witness for C4 at a concrete unreported finding whose creation raises. -/
theorem creation_failure_leaves_finding_unchanged_witness :
    reconcile "123456789012" "acme" 100 30 envCreateFails sampleUnreported
      = ([Event.addIssue unrepSummary unrepDescr "Major" ["ecs-logging"]],
         Except.ok sampleUnreported)
    ∧ (reconcile "123456789012" "acme" 200 40 envCreateFails
        sampleUnreported).1.any isCreateAttempt = true := by
  have h := creation_failure_leaves_finding_unchanged "123456789012" "acme"
    100 30 envCreateFails sampleUnreported rfl rfl
  exact ⟨h.1.trans rfl, h.2 envCreateFails 200 40⟩

/-- C5: an unreported finding whose ticket creation returns a response is
persisted with status Reported, reported timestamp now, the response's ticket
id and assignee, and owner, business unit and product looked up in the
finding's tags at creation time, a missing tag giving none. -/
theorem successful_creation_marks_reported (accountId accountName : String)
    (now retention : Nat) (env : Env) (issue : Issue) (r : NewIssueResponse)
    (hrep : issue.timestamps.reported = none)
    (hadd : env.addIssueResult = Except.ok (some r))
    (hslack : env.slackRaises = false) :
    (reconcile accountId accountName now retention env issue).2.map
        reportView
      = Except.ok (IssueStatus.Reported, some now, some r.ticket_id,
          r.ticket_assignee_id,
          tagsGet issue.issue_details.tags "owner",
          tagsGet issue.issue_details.tags "bu",
          tagsGet issue.issue_details.tags "product") := by
  simp [reconcile, hrep, hadd, hslack, reportView, withTicket,
    withOwnership, set_status_reported, Except.map]

/-- Witness for C5 at a concrete unreported finding under envOk. -/
theorem successful_creation_marks_reported_witness :
    (reconcile "123456789012" "acme" 100 30 envOk sampleUnreported).2.map
        reportView
      = Except.ok (IssueStatus.Reported, some 100, some "X-9",
          some "assignee-9", some "alice", some "fin", none) :=
  (successful_creation_marks_reported "123456789012" "acme" 100 30 envOk
    sampleUnreported respX9 rfl rfl rfl).trans rfl

/-- C7: a reported, still open finding whose updated timestamp exceeds its
reported timestamp triggers exactly one changed notification, built from the
owner, business unit and product stored on the finding's jira metadata, and
one store update advancing the last-acknowledged-update marker; no ticket
call is issued, the status stays Open, and a second pass over the persisted
finding is a no-op until updated advances again. -/
theorem drift_notifies_and_advances_marker (accountId accountName : String)
    (now retention : Nat) (env : Env) (issue : Issue) (t : Nat)
    (hst : issue.status = IssueStatus.Open)
    (hrep : issue.timestamps.reported = some t)
    (hupd : t < issue.timestamps.updated)
    (hslack : env.slackRaises = false) :
    reconcile accountId accountName now retention env issue
      = ([Event.slackReport
            (changedMsg issue.issue_id accountName accountId
              issue.issue_details.region issue.jira_details.ticket)
            issue.jira_details.owner accountId
            issue.jira_details.business_unit issue.jira_details.product,
          Event.setStatusUpdated],
         Except.ok (set_status_updated issue))
    ∧ (set_status_updated issue).status = IssueStatus.Open
    ∧ ∀ env2 : Env, ∀ now2 ret2 : Nat,
        reconcile accountId accountName now2 ret2 env2
          (set_status_updated issue)
          = ([], Except.ok (set_status_updated issue)) := by
  refine ⟨?_, ?_, ?_⟩
  · simp [reconcile, hrep, hst, hupd, hslack]
  · simp [set_status_updated, hst]
  · intro env2 now2 ret2
    simp [reconcile, set_status_updated, hst]

/-- Witness for C7 at a concrete drifted finding under envOk. -/
theorem drift_notifies_and_advances_marker_witness :
    reconcile "a1" "n1" 100 30 envOk sampleDrift
      = ([Event.slackReport
            (changedMsg "arn:task:4" "n1" "a1" "us-east-1" (some "X-1"))
            (some "alice") "a1" (some "fin") (some "widget"),
          Event.setStatusUpdated],
         Except.ok (set_status_updated sampleDrift))
    ∧ (set_status_updated sampleDrift).status = IssueStatus.Open
    ∧ reconcile "a1" "n1" 200 40 envCreateFails
        (set_status_updated sampleDrift)
        = ([], Except.ok (set_status_updated sampleDrift)) := by
  have h := drift_notifies_and_advances_marker "a1" "n1" 100 30 envOk
    sampleDrift 10 rfl rfl (by decide) rfl
  exact ⟨h.1.trans rfl, h.2.1, h.2.2 envCreateFails 200 40⟩

/-- C8: a reported whitelisted finding is labelled whitelisted first and
closed second (the label event precedes the close event in the trace), the
close comment names the account and the region, and the persisted status is
Closed. -/
theorem whitelisted_label_then_close (accountId accountName : String)
    (now retention : Nat) (env : Env) (issue : Issue) (t : Nat)
    (hst : issue.status = IssueStatus.Whitelisted)
    (hrep : issue.timestamps.reported = some t)
    (henv : envClean env = true) :
    reconcile accountId accountName now retention env issue
      = ([Event.addLabel issue.jira_details.ticket "whitelisted",
          Event.closeIssue issue.jira_details.ticket
            (closeComment IssueStatus.Whitelisted issue.issue_id accountName
              accountId issue.issue_details.region),
          Event.slackReport
            (closeComment IssueStatus.Whitelisted issue.issue_id accountName
                accountId issue.issue_details.region ++
              ticketSuffix issue.jira_details.ticket)
            issue.jira_details.owner accountId
            issue.jira_details.business_unit issue.jira_details.product,
          Event.setStatusClosed],
         Except.ok (set_status_closed issue))
    ∧ (set_status_closed issue).status = IssueStatus.Closed
    ∧ mentions
        (closeComment IssueStatus.Whitelisted issue.issue_id accountName
          accountId issue.issue_details.region) accountId
    ∧ mentions
        (closeComment IssueStatus.Whitelisted issue.issue_id accountName
          accountId issue.issue_details.region)
        issue.issue_details.region := by
  simp only [envClean, Bool.and_eq_true, Bool.not_eq_true'] at henv
  refine ⟨?_, rfl, ?_, ?_⟩
  · simp [reconcile, hrep, hst, henv.1.1, henv.1.2, henv.2,
      IssueStatus.value]
  · refine ⟨"Closing " ++ IssueStatus.Whitelisted.value ++
      " ECS logging enabled \x27" ++ issue.issue_id ++ "\x27 issue " ++
      "in \x27" ++ accountName ++ " / ",
      "\x27 account, \x27" ++ issue.issue_details.region ++ "\x27 region",
      ?_⟩
    simp [closeComment, IssueStatus.value, String.append_assoc]
  · refine ⟨"Closing " ++ IssueStatus.Whitelisted.value ++
      " ECS logging enabled \x27" ++ issue.issue_id ++ "\x27 issue " ++
      "in \x27" ++ accountName ++ " / " ++ accountId ++
      "\x27 account, \x27",
      "\x27 region", ?_⟩
    simp [closeComment, IssueStatus.value, String.append_assoc]

/-- Witness for C8 at the sample whitelisted finding under envOk. -/
theorem whitelisted_label_then_close_witness :
    reconcile "a1" "n1" 100 30 envOk sampleWhitelisted
      = (wlTrace, Except.ok (set_status_closed sampleWhitelisted))
    ∧ (set_status_closed sampleWhitelisted).status = IssueStatus.Closed
    ∧ mentions
        (closeComment IssueStatus.Whitelisted "arn:task:2" "n1" "a1"
          "us-east-1") "a1"
    ∧ mentions
        (closeComment IssueStatus.Whitelisted "arn:task:2" "n1" "a1"
          "us-east-1") "us-east-1" := by
  have h := whitelisted_label_then_close "a1" "n1" 100 30 envOk
    sampleWhitelisted 10 rfl rfl rfl
  exact ⟨h.1.trans rfl, h.2.1, h.2.2.1, h.2.2.2⟩

/-- C6: when a reported finding is Resolved or Whitelisted and its updated
timestamp also exceeds its reported timestamp, the terminal-disposition
branch wins over the drift branch: the ticket is closed, the persisted
status is Closed, and no drift store update is issued. -/
theorem terminal_disposition_beats_drift (accountId accountName : String)
    (now retention : Nat) (env : Env) (issue : Issue) (t : Nat)
    (hst : issue.status = IssueStatus.Resolved ∨
      issue.status = IssueStatus.Whitelisted)
    (hrep : issue.timestamps.reported = some t)
    (hupd : t < issue.timestamps.updated)
    (henv : envClean env = true) :
    (reconcile accountId accountName now retention env issue).2.map
        Issue.status = Except.ok IssueStatus.Closed
    ∧ Event.setStatusUpdated ∉
        (reconcile accountId accountName now retention env issue).1
    ∧ (reconcile accountId accountName now retention env issue).1.any
        isCloseEvent = true
    ∧ Event.setStatusClosed ∈
        (reconcile accountId accountName now retention env issue).1 := by
  simp only [envClean, Bool.and_eq_true, Bool.not_eq_true'] at henv
  rcases hst with h | h <;>
    simp [reconcile, hrep, h, henv.1.1, henv.1.2, henv.2, isCloseEvent,
      set_status_closed, Except.map]

/-- Witness for C6 at a resolved finding whose detection also drifted. -/
theorem terminal_disposition_beats_drift_witness :
    (reconcile "a1" "n1" 100 30 envOk sampleResolved).2.map Issue.status
      = Except.ok IssueStatus.Closed
    ∧ Event.setStatusUpdated ∉
        (reconcile "a1" "n1" 100 30 envOk sampleResolved).1
    ∧ (reconcile "a1" "n1" 100 30 envOk sampleResolved).1.any isCloseEvent
        = true
    ∧ Event.setStatusClosed ∈
        (reconcile "a1" "n1" 100 30 envOk sampleResolved).1 :=
  terminal_disposition_beats_drift "a1" "n1" 100 30 envOk sampleResolved 10
    (Or.inl rfl) rfl (by decide) rfl

/-- C10: whatever branch runs and whatever the external outcomes are, the
persisted finding keeps the detection-side fields of the input finding: its
issue id and its issue details (region and tags) are never written. -/
theorem engine_preserves_issue_identity (accountId accountName : String)
    (now retention : Nat) (env : Env) (issue : Issue) (tr : List Event)
    (i2 : Issue)
    (h : reconcile accountId accountName now retention env issue
      = (tr, Except.ok i2)) :
    i2.issue_details = issue.issue_details
      ∧ i2.issue_id = issue.issue_id := by
  unfold reconcile at h
  rcases hrep : issue.timestamps.reported with _ | t <;>
    simp only [hrep] at h
  case none =>
    rcases henv : env.addIssueResult with e | response <;>
      simp only [henv] at h
    case error =>
      simp only [Prod.mk.injEq, Except.ok.injEq] at h
      obtain ⟨-, h2⟩ := h
      subst h2
      exact ⟨rfl, rfl⟩
    case ok =>
      by_cases hs : env.slackRaises = true
      · simp [hs] at h
      · simp only [hs] at h
        simp only [Bool.false_eq_true, if_false, Prod.mk.injEq,
          Except.ok.injEq] at h
        obtain ⟨-, h2⟩ := h
        subst h2
        rcases response with _ | r <;> exact ⟨rfl, rfl⟩
  case some =>
    by_cases hterm : issue.status = IssueStatus.Resolved ∨
        issue.status = IssueStatus.Whitelisted
    · by_cases hlab : issue.status = IssueStatus.Whitelisted ∧
          env.addLabelRaises = true
      · simp [hterm, hlab] at h
      · by_cases hcl : env.closeRaises = true
        · simp [hterm, hlab, hcl] at h
        · by_cases hs : env.slackRaises = true
          · simp [hterm, hlab, hcl, hs] at h
          · simp only [hterm, if_true, hlab, hcl, hs, Bool.false_eq_true,
              if_false, Prod.mk.injEq, Except.ok.injEq, if_pos, if_neg,
              not_false_eq_true] at h
            obtain ⟨-, h2⟩ := h
            subst h2
            exact ⟨rfl, rfl⟩
    · by_cases hupd : t < issue.timestamps.updated
      · by_cases hs : env.slackRaises = true
        · simp [hterm, hupd, hs] at h
        · simp only [hterm, hupd, hs, Bool.false_eq_true, if_false,
            if_true, if_pos, if_neg, not_false_eq_true, Prod.mk.injEq,
            Except.ok.injEq] at h
          obtain ⟨-, h2⟩ := h
          subst h2
          exact ⟨rfl, rfl⟩
      · simp only [hterm, hupd, if_false, if_neg, not_false_eq_true,
          gt_iff_lt, Prod.mk.injEq, Except.ok.injEq] at h
        obtain ⟨-, h2⟩ := h
        subst h2
        exact ⟨rfl, rfl⟩

/-- Witness for C10: the whitelisted close branch keeps the detection-side
fields of the sample finding. -/
theorem engine_preserves_issue_identity_witness :
    (set_status_closed sampleWhitelisted).issue_details
        = sampleWhitelisted.issue_details
      ∧ (set_status_closed sampleWhitelisted).issue_id
        = sampleWhitelisted.issue_id :=
  engine_preserves_issue_identity "a1" "n1" 100 30 envOk sampleWhitelisted
    wlTrace (set_status_closed sampleWhitelisted) rfl

/-- C2 counterexample: when jira.add_issue succeeds but returns None, the
source still calls set_status_reported, so the finding is persisted as
Reported with its reported timestamp set and no ticket id — refuting the
claimed iff between carrying a ticket id and having reported set. -/
theorem reported_without_ticket_cex :
    (reconcile "123456789012" "acme" 100 30 envNoneResponse
        sampleUnreported).2 = Except.ok reportedNoTicket
    ∧ reportedNoTicket.status = IssueStatus.Reported
    ∧ reportedNoTicket.timestamps.reported = some 100
    ∧ reportedNoTicket.jira_details.ticket = none :=
  ⟨rfl, rfl, rfl, rfl⟩

/-- C2 amended: if the input finding satisfies the invariant, then after a
reconciliation step the finding still never carries a ticket id while its
reported timestamp is unset; and whenever ticket creation returns a response
the finding is persisted Reported, with reported set, carrying the returned
ticket id.  The other direction of the claimed iff fails: a None response
from the jira client is persisted Reported without a ticket id. -/
theorem ticket_reported_invariant_amended (accountId accountName : String)
    (now retention : Nat) (env : Env) (issue : Issue) (tr : List Event)
    (i2 : Issue)
    (hinv : issue.timestamps.reported = none →
      issue.jira_details.ticket = none)
    (h : reconcile accountId accountName now retention env issue
      = (tr, Except.ok i2)) :
    (i2.timestamps.reported = none → i2.jira_details.ticket = none)
    ∧ ∀ r : NewIssueResponse,
        env.addIssueResult = Except.ok (some r) →
        issue.timestamps.reported = none →
        i2.jira_details.ticket = some r.ticket_id
          ∧ i2.timestamps.reported = some now
          ∧ i2.status = IssueStatus.Reported := by
  unfold reconcile at h
  rcases hrep : issue.timestamps.reported with _ | t <;>
    simp only [hrep] at h
  case none =>
    rcases henv : env.addIssueResult with e | response <;>
      simp only [henv] at h
    case error =>
      simp only [Prod.mk.injEq, Except.ok.injEq] at h
      obtain ⟨-, h2⟩ := h
      subst h2
      refine ⟨hinv, ?_⟩
      intro r hr
      exact Except.noConfusion hr
    case ok =>
      by_cases hs : env.slackRaises = true
      · simp [hs] at h
      · simp only [hs, Bool.false_eq_true, if_false, Prod.mk.injEq,
          Except.ok.injEq] at h
        obtain ⟨-, h2⟩ := h
        subst h2
        constructor
        · intro hx
          simp [set_status_reported] at hx
        · intro r hr hnone
          injection hr with hr2
          subst hr2
          exact ⟨rfl, rfl, rfl⟩
  case some =>
    by_cases hterm : issue.status = IssueStatus.Resolved ∨
        issue.status = IssueStatus.Whitelisted
    · by_cases hlab : issue.status = IssueStatus.Whitelisted ∧
          env.addLabelRaises = true
      · simp [hterm, hlab] at h
      · by_cases hcl : env.closeRaises = true
        · simp [hterm, hlab, hcl] at h
        · by_cases hs : env.slackRaises = true
          · simp [hterm, hlab, hcl, hs] at h
          · simp only [hterm, if_true, hlab, hcl, hs, Bool.false_eq_true,
              if_false, Prod.mk.injEq, Except.ok.injEq, if_pos, if_neg,
              not_false_eq_true] at h
            obtain ⟨-, h2⟩ := h
            subst h2
            constructor
            · intro hx
              simp [set_status_closed, hrep] at hx
            · intro r hr hnone
              exact Option.noConfusion hnone
    · by_cases hupd : t < issue.timestamps.updated
      · by_cases hs : env.slackRaises = true
        · simp [hterm, hupd, hs] at h
        · simp only [hterm, hupd, hs, Bool.false_eq_true, if_false,
            if_true, if_pos, if_neg, not_false_eq_true, Prod.mk.injEq,
            Except.ok.injEq] at h
          obtain ⟨-, h2⟩ := h
          subst h2
          constructor
          · intro hx
            simp [set_status_updated] at hx
          · intro r hr hnone
            exact Option.noConfusion hnone
      · simp only [hterm, hupd, if_false, if_neg, not_false_eq_true,
          gt_iff_lt, Prod.mk.injEq, Except.ok.injEq] at h
        obtain ⟨-, h2⟩ := h
        subst h2
        constructor
        · intro hx
          simp [hrep] at hx
        · intro r hr hnone
          exact Option.noConfusion hnone

/-- Witness for the amended C2 at a concrete successful creation. -/
theorem ticket_reported_invariant_amended_witness :
    (reportedWithTicket.timestamps.reported = none →
      reportedWithTicket.jira_details.ticket = none)
    ∧ (reportedWithTicket.jira_details.ticket = some "X-9"
        ∧ reportedWithTicket.timestamps.reported = some 100
        ∧ reportedWithTicket.status = IssueStatus.Reported) := by
  have h := ticket_reported_invariant_amended "123456789012" "acme" 100 30
    envOk sampleUnreported unrepTraceOk reportedWithTicket (by decide) rfl
  exact ⟨h.1, h.2 respX9 rfl rfl⟩

/-- C3 counterexample: a reported whitelisted finding is labelled and then
closed — two ticket mutations in one run for one finding, refuting the
claimed bound of at most one ticket mutation. -/
theorem whitelisted_two_ticket_mutations_cex :
    (reconcile "a1" "n1" 100 30 envOk sampleWhitelisted).1.countP
        isTicketMutation = 2
    ∧ ¬ (reconcile "a1" "n1" 100 30 envOk sampleWhitelisted).1.countP
        isTicketMutation ≤ 1 :=
  ⟨rfl, by decide⟩

/-- C3 amended: per finding per run the engine performs at most two ticket
mutations (two only when a whitelisted finding is labelled and then closed),
at most one notification, and at most one store update. -/
theorem per_finding_effect_bounds (accountId accountName : String)
    (now retention : Nat) (env : Env) (issue : Issue) :
    effectBounds
      (reconcile accountId accountName now retention env issue).1 := by
  unfold reconcile
  rcases issue.timestamps.reported with _ | t
  case none =>
    rcases env.addIssueResult with e | response
    · simp [effectBounds, isTicketMutation, isNotification, isStoreUpdate]
    · by_cases hs : env.slackRaises = true <;>
        simp [hs, effectBounds, isTicketMutation, isNotification,
          isStoreUpdate]
  case some =>
    by_cases hterm : issue.status = IssueStatus.Resolved ∨
        issue.status = IssueStatus.Whitelisted
    · rcases hterm with hres | hwl
      · by_cases hcl : env.closeRaises = true <;>
          by_cases hs : env.slackRaises = true <;>
          simp [hres, hcl, hs, effectBounds, isTicketMutation,
            isNotification, isStoreUpdate]
      · by_cases hal : env.addLabelRaises = true <;>
          by_cases hcl : env.closeRaises = true <;>
          by_cases hs : env.slackRaises = true <;>
          simp [hwl, hal, hcl, hs, effectBounds, isTicketMutation,
            isNotification, isStoreUpdate]
    · by_cases hupd : t < issue.timestamps.updated <;>
        by_cases hs : env.slackRaises = true <;>
        simp [hterm, hupd, hs, effectBounds, isTicketMutation,
          isNotification, isStoreUpdate]

/-- Reconciling one finding cannot raise when the label, close and slack
calls all succeed: only jira.add_issue can fail, and its failure is caught
by the try/except of the loop body. -/
theorem reconcile_clean_isOk (accountId accountName : String)
    (now retention : Nat) (env : Env) (issue : Issue)
    (h1 : env.addLabelRaises = false) (h2 : env.closeRaises = false)
    (h3 : env.slackRaises = false) :
    (reconcile accountId accountName now retention env issue).2.isOk
      = true := by
  unfold reconcile
  rcases issue.timestamps.reported with _ | t
  case none =>
    rcases env.addIssueResult with e | response <;>
      simp [h3, Except.isOk, Except.toBool]
  case some =>
    by_cases hterm : issue.status = IssueStatus.Resolved ∨
        issue.status = IssueStatus.Whitelisted
    · rcases hterm with hres | hwl
      · simp [hres, h1, h2, h3, Except.isOk, Except.toBool]
      · simp [hwl, h1, h2, h3, Except.isOk, Except.toBool]
    · by_cases hupd : t < issue.timestamps.updated <;>
        simp [hterm, hupd, h3, Except.isOk, Except.toBool]

/-- When every finding of an account comes with an environment whose label,
close and slack calls succeed, the inner loop runs to completion and yields
one reconciled finding per input finding. -/
theorem processFindings_complete (accountId accountName : String)
    (now retention : Nat) (findings : List (Issue × Env))
    (h : ∀ fe ∈ findings, envClean fe.2 = true) :
    (processFindings accountId accountName now retention findings).2 = true
    ∧ (processFindings accountId accountName now retention
        findings).1.length = findings.length := by
  induction findings with
  | nil => simp [processFindings]
  | cons fe rest ih =>
    obtain ⟨issue, env⟩ := fe
    have hc := h (issue, env) (List.mem_cons_self _ _)
    simp only [envClean, Bool.and_eq_true, Bool.not_eq_true'] at hc
    have hok := reconcile_clean_isOk accountId accountName now retention
      env issue hc.1.1 hc.1.2 hc.2
    have ih2 := ih (fun fe2 hfe => h fe2 (List.mem_cons_of_mem _ hfe))
    unfold processFindings
    rcases hr : reconcile accountId accountName now retention env issue
      with ⟨tr, res⟩
    rcases res with e | issue2
    · rw [hr] at hok
      simp [Except.isOk, Except.toBool] at hok
    · simp [ih2.1, ih2.2]

/-- C1 counterexample: a slack notification failure while reconciling the
first finding of an account aborts the run — the second finding is never
reconciled (the result list is empty and the completion flag false) — while
the identical run without the failure reconciles both findings. -/
theorem failure_aborts_run_cex :
    processAccounts 100 30
      [{ accountId := "a1", accountName := "n1",
         findings := [(sampleDrift, envSlackFails),
                      (sampleUnreported, envOk)] }]
      = ([[]], false)
    ∧ (processAccounts 100 30
        [{ accountId := "a1", accountName := "n1",
           findings := [(sampleDrift, envOk),
                        (sampleUnreported, envOk)] }]).2 = true
    ∧ (processAccounts 100 30
        [{ accountId := "a1", accountName := "n1",
           findings := [(sampleDrift, envOk),
                        (sampleUnreported, envOk)] }]).1.map List.length
      = [2] :=
  ⟨rfl, rfl, rfl⟩

/-- C1 amended: only ticket-creation failures are isolated per finding.  In
a run where no label, close or notification call raises, every finding of
every account is reconciled even if any number of ticket creations fail;
a label, close or notification failure instead aborts the remainder of the
run (see the counterexample). -/
theorem clean_run_reconciles_every_finding (now retention : Nat)
    (accounts : List AccountInput)
    (h : ∀ a ∈ accounts, ∀ fe ∈ a.findings, envClean fe.2 = true) :
    (processAccounts now retention accounts).2 = true
    ∧ (processAccounts now retention accounts).1.map List.length
      = accounts.map (fun a => a.findings.length) := by
  induction accounts with
  | nil => simp [processAccounts]
  | cons a rest ih =>
    have hf := processFindings_complete a.accountId a.accountName now
      retention a.findings (h a (List.mem_cons_self _ _))
    have ih2 := ih (fun a2 ha2 => h a2 (List.mem_cons_of_mem _ ha2))
    unfold processAccounts
    simp [hf.1, hf.2, ih2.1, ih2.2]

/-- Witness for the amended C1: a run holding a creation failure and a
whitelisted finding completes and reconciles both findings. -/
theorem clean_run_reconciles_every_finding_witness :
    (processAccounts 100 30 witnessAccounts).2 = true
    ∧ (processAccounts 100 30 witnessAccounts).1.map List.length = [2] := by
  have h := clean_run_reconciles_every_finding 100 30 witnessAccounts
    (by decide)
  exact ⟨h.1, h.2.trans rfl⟩

end Hammer
